import Mathlib

/-!
Verification of the `VulkanAppBase` harness (src/common/vkappbase.cpp) from
edom18/VulkanSample.  The C++ class is shallowly embedded: pure helper
functions (`getMemoryTypeIndex`, the surface-format search, the swapchain
extent computation) become Lean functions; the side-effecting phases
(`initialize`, `render`, `terminate`) become functions producing an explicit
trace of driver operations (`Event`) together with the updated application
state.  Driver-supplied data (memory properties, surface formats, surface
capabilities, the actual swapchain image count, each call's `VkResult`) is an
explicit environment.  Machine integers are modelled as `Nat`; the only
overflow-relevant value is the `~0u` sentinel, written out as `4294967295`.
-/

namespace VulkanApp

/-- `VkResult`: `VK_SUCCESS` or some error code. -/
inductive VkResult where
  | success : VkResult
  | error : Nat → VkResult
deriving DecidableEq

/-- One entry of `VkPhysicalDeviceMemoryProperties::memoryTypes`:
only the `propertyFlags` bitmask matters to this program. -/
structure MemoryType where
  propertyFlags : Nat
deriving DecidableEq

/-- A `VkSurfaceFormatKHR`: a format and a color space (both enum values). -/
structure SurfaceFormat where
  format : Nat
  colorSpace : Nat
deriving DecidableEq

/-- A `VkExtent2D`. -/
structure Extent2D where
  width : Nat
  height : Nat
deriving DecidableEq

/-- The part of `VkSurfaceCapabilitiesKHR` that the program reads. -/
structure SurfaceCaps where
  minImageCount : Nat
  currentExtent : Extent2D
deriving DecidableEq

/-- The C++ `~0u` sentinel (`0xFFFFFFFF`), used both as the "no memory type
found" return of `getMemoryTypeIndex` and as the "undefined extent" marker. -/
def invalidSentinel : Nat := 4294967295

/-- `VK_MEMORY_PROPERTY_DEVICE_LOCAL_BIT`. -/
def VK_MEMORY_PROPERTY_DEVICE_LOCAL_BIT : Nat := 1

/-- `VK_FORMAT_B8G8R8A8_UNORM` (the preferred format passed at line 81). -/
def VK_FORMAT_B8G8R8A8_UNORM : Nat := 44

/-- `VK_PRESENT_MODE_FIFO_KHR`. -/
def VK_PRESENT_MODE_FIFO_KHR : Nat := 2

/-- Loop body of `VulkanAppBase::getMemoryTypeIndex` (vkappbase.cpp:572-590):
walks the memory types with counter `i`, shifting `requestBits` right each
iteration; on a set low bit whose type's `propertyFlags` contain
`requestProps` it breaks with `i`, otherwise it falls off the end with the
`~0u` sentinel. -/
def getMemoryTypeIndexGo : List MemoryType → Nat → Nat → Nat → Nat
  | [], _, _, _ => invalidSentinel
  | t :: rest, requestBits, requestProps, i =>
    if requestBits % 2 = 1 then
      if Nat.land t.propertyFlags requestProps = requestProps then i
      else getMemoryTypeIndexGo rest (requestBits / 2) requestProps (i + 1)
    else getMemoryTypeIndexGo rest (requestBits / 2) requestProps (i + 1)

/-- `VulkanAppBase::getMemoryTypeIndex` (vkappbase.cpp:572-590). -/
def getMemoryTypeIndex (memTypes : List MemoryType) (requestBits requestProps : Nat) : Nat :=
  getMemoryTypeIndexGo memTypes requestBits requestProps 0

/-- `VulkanAppBase::selectSurfaceFormat` (vkappbase.cpp:274-289): the loop
assigns `m_surfaceFormat = f` for every matching entry without breaking, so
the stored value is the last match, or the prior field value when none
matches. -/
def selectSurfaceFormat (formats : List SurfaceFormat) (format : Nat)
    (prior : SurfaceFormat) : SurfaceFormat :=
  formats.foldl (fun cur f => if f.format = format then f else cur) prior

/-- Modelled from the spec: "selects the first format matching a
caller-specified preferred format" (§4.1).  Used only to compare the spec's
words against `selectSurfaceFormat` as implemented. -/
def specFirstMatchingFormat (formats : List SurfaceFormat) (format : Nat) :
    Option SurfaceFormat :=
  formats.find? (fun f => f.format == format)

/-- The extent computation of `VulkanAppBase::createSwapchain`
(vkappbase.cpp:303-313): take the capability's `currentExtent`; if (and only
if) its `width` is `~0u`, replace both components with the window size. -/
def swapchainExtentOf (caps : SurfaceCaps) (windowSize : Extent2D) : Extent2D :=
  let extent := caps.currentExtent
  if extent.width = invalidSentinel then windowSize else extent

/-- The requested image count of `VulkanAppBase::createSwapchain`
(vkappbase.cpp:303): `max(2u, m_surfaceCaps.minImageCount)`. -/
def swapchainImageCountOf (caps : SurfaceCaps) : Nat :=
  max 2 caps.minImageCount

/-- The kinds of Vulkan handles the harness creates and destroys. -/
inductive HandleKind where
  | vkInstance
  | device
  | surface
  | swapchain
  | depthImage
  | depthMemory
  | colorView
  | depthView
  | renderPass
  | framebuffer
  | commandBuffer
  | fence
  | semaphore
  | commandPool
deriving DecidableEq

/-- One observable driver operation.  `create`/`destroy` carry the handle
kind; the per-frame operations of `render` carry the image index they act
on; `debugBreak` is the visible abort raised by `checkResult`. -/
inductive Event where
  | create : HandleKind → Event
  | destroy : HandleKind → Event
  | debugBreak : Event
  | deviceWaitIdle : Event
  | allocateMemoryOp : Nat → Event
  | bindImageMemoryOp : Event
  | acquireNextImage : Event
  | waitFence : Nat → Event
  | beginCommandBuffer : Nat → Event
  | beginRenderPass : Nat → Event
  | setImageIndex : Nat → Event
  | makeCommand : Nat → Event
  | endRenderPass : Event
  | endCommandBuffer : Nat → Event
  | resetFence : Nat → Event
  | queueSubmit : Event
  | queuePresent : Nat → Event
deriving DecidableEq

/-- `VulkanAppBase::checkResult` (vkappbase.cpp:43-49): `DebugBreak()` on any
result other than `VK_SUCCESS`, otherwise nothing. -/
def checkResult (result : VkResult) : List Event :=
  if result = VkResult.success then [] else [Event.debugBreak]

/-- The driver-chosen result of every call site whose `VkResult` the program
receives.  Call sites executed once per image index take the index. -/
structure Results where
  createInstanceR : VkResult
  createDeviceR : VkResult
  createCommandPoolR : VkResult
  createSurfaceR : VkResult
  createSwapchainR : VkResult
  createDepthImageR : VkResult
  allocateMemoryR : VkResult
  bindImageMemoryR : VkResult
  createColorViewR : Nat → VkResult
  createDepthViewR : VkResult
  createRenderPassR : VkResult
  createFramebufferR : Nat → VkResult
  allocateCommandBuffersR : VkResult
  createFenceR : Nat → VkResult
  createSemaphoreR : Nat → VkResult
  acquireR : VkResult
  waitFencesR : VkResult
  beginCommandBufferR : VkResult
  endCommandBufferR : VkResult
  resetFencesR : VkResult
  queueSubmitR : VkResult
  queuePresentR : VkResult

/-- The environment: everything the driver / window system reports to the
program during `initialize`. -/
structure Env where
  memTypes : List MemoryType
  depthMemoryTypeBits : Nat
  surfaceFormats : List SurfaceFormat
  surfaceCaps : SurfaceCaps
  windowSize : Extent2D
  actualImageCount : Nat

/-- The `ai.memoryTypeIndex` used for the depth allocation
(vkappbase.cpp:385). -/
def depthMemoryTypeIndex (env : Env) : Nat :=
  getMemoryTypeIndex env.memTypes env.depthMemoryTypeBits
    VK_MEMORY_PROPERTY_DEVICE_LOCAL_BIT

/-- Trace of `VulkanAppBase::initializeInstance` (vkappbase.cpp:148-192):
create the instance, check its result. -/
def initializeInstanceTrace (res : Results) : List Event :=
  Event.create HandleKind.vkInstance :: checkResult res.createInstanceR

/-- Trace of `VulkanAppBase::createDevice` (vkappbase.cpp:227-262). -/
def createDeviceTrace (res : Results) : List Event :=
  Event.create HandleKind.device :: checkResult res.createDeviceR

/-- Trace of `VulkanAppBase::prepareCommandPool` (vkappbase.cpp:264-272). -/
def prepareCommandPoolTrace (res : Results) : List Event :=
  Event.create HandleKind.commandPool :: checkResult res.createCommandPoolR

/-- Trace of the `glfwCreateWindowSurface` call (vkappbase.cpp:78): its
return value is discarded, so no check follows. -/
def createSurfaceTrace : List Event :=
  [Event.create HandleKind.surface]

/-- Trace of `VulkanAppBase::createSwapchain` (vkappbase.cpp:295-339). -/
def createSwapchainTrace (res : Results) : List Event :=
  Event.create HandleKind.swapchain :: checkResult res.createSwapchainR

/-- Trace of `VulkanAppBase::createDepthBuffer` (vkappbase.cpp:344-393):
create the depth image (result checked), then unconditionally allocate
memory with the looked-up type index and bind it — neither the index nor the
results of `vkAllocateMemory`/`vkBindImageMemory` are checked. -/
def createDepthBufferTrace (env : Env) (res : Results) : List Event :=
  Event.create HandleKind.depthImage ::
    (checkResult res.createDepthImageR ++
      [Event.allocateMemoryOp (depthMemoryTypeIndex env),
       Event.create HandleKind.depthMemory,
       Event.bindImageMemoryOp])

/-- A loop that, for `i = 0, …, n-1`, creates one handle of kind `K` and
checks the driver result `g i`.  `createViews`, `createFramebuffer` and the
fence loop of `prepareCommandBuffers` all have this shape. -/
def perImageTrace (K : HandleKind) (g : Nat → VkResult) : Nat → List Event
  | 0 => []
  | n + 1 =>
    perImageTrace K g n ++ (Event.create K :: checkResult (g n))

/-- The color-view loop of `VulkanAppBase::createViews`
(vkappbase.cpp:406-423): one view plus result check per image index. -/
def createColorViewsTrace (res : Results) (n : Nat) : List Event :=
  perImageTrace HandleKind.colorView res.createColorViewR n

/-- Trace of `VulkanAppBase::createViews` (vkappbase.cpp:398-443): the color
views, then the depth view with its check. -/
def createViewsTrace (env : Env) (res : Results) : List Event :=
  createColorViewsTrace res env.actualImageCount ++
    (Event.create HandleKind.depthView :: checkResult res.createDepthViewR)

/-- Trace of `VulkanAppBase::createRenderPass` (vkappbase.cpp:448-500). -/
def createRenderPassTrace (res : Results) : List Event :=
  Event.create HandleKind.renderPass :: checkResult res.createRenderPassR

/-- The framebuffer loop of `VulkanAppBase::createFramebuffer`
(vkappbase.cpp:505-531): one framebuffer plus result check per view. -/
def createFramebufferTrace (res : Results) (n : Nat) : List Event :=
  perImageTrace HandleKind.framebuffer res.createFramebufferR n

/-- The fence loop of `VulkanAppBase::prepareCommandBuffers`
(vkappbase.cpp:554-558): one fence plus result check each. -/
def createFencesTrace (res : Results) (n : Nat) : List Event :=
  perImageTrace HandleKind.fence res.createFenceR n

/-- Trace of `VulkanAppBase::prepareCommandBuffers` (vkappbase.cpp:536-559):
one `vkAllocateCommandBuffers` call yielding `n` buffers (one check), then
the fence loop. -/
def prepareCommandBuffersTrace (env : Env) (res : Results) : List Event :=
  List.replicate env.actualImageCount (Event.create HandleKind.commandBuffer) ++
    checkResult res.allocateCommandBuffersR ++
    createFencesTrace res env.actualImageCount

/-- Trace of `VulkanAppBase::prepareSemaphores` (vkappbase.cpp:564-570): two
semaphores are created and neither `vkCreateSemaphore` result is checked. -/
def prepareSemaphoresTrace : List Event :=
  [Event.create HandleKind.semaphore, Event.create HandleKind.semaphore]

/-- Trace of `VulkanAppBase::initialize` (vkappbase.cpp:57-110), in source
order.  The pure queries (physical device, queue family, surface formats,
capabilities) and the app-specific `prepare()` hook emit no core events. -/
def initializeTrace (env : Env) (res : Results) : List Event :=
  initializeInstanceTrace res ++
    createDeviceTrace res ++
    prepareCommandPoolTrace res ++
    createSurfaceTrace ++
    createSwapchainTrace res ++
    createDepthBufferTrace env res ++
    createViewsTrace env res ++
    createRenderPassTrace res ++
    createFramebufferTrace res env.actualImageCount ++
    prepareCommandBuffersTrace env res ++
    prepareSemaphoresTrace

/-- Trace of `VulkanAppBase::terminate` (vkappbase.cpp:112-146): device-idle
wait, then free/destroy in source order.  No `vkDestroyImageView`,
`vkDestroyImage` or `vkFreeMemory` call appears anywhere in the function, so
the swapchain views, the depth view, the depth image and its memory are
never released. -/
def terminateTrace (env : Env) : List Event :=
  Event.deviceWaitIdle ::
    (List.replicate env.actualImageCount (Event.destroy HandleKind.commandBuffer) ++
      [Event.destroy HandleKind.renderPass] ++
      List.replicate env.actualImageCount (Event.destroy HandleKind.framebuffer) ++
      [Event.destroy HandleKind.swapchain] ++
      List.replicate env.actualImageCount (Event.destroy HandleKind.fence) ++
      [Event.destroy HandleKind.semaphore, Event.destroy HandleKind.semaphore,
       Event.destroy HandleKind.commandPool,
       Event.destroy HandleKind.surface,
       Event.destroy HandleKind.device,
       Event.destroy HandleKind.vkInstance])

/-- The member fields of `VulkanAppBase` that the claims are about.  Handle
values are opaque to the program, so handles are abstracted as `Nat` and the
handles the driver returns for the per-image arrays are modelled as the
indices `0, …, n-1`. -/
structure AppState where
  surfaceFormat : SurfaceFormat
  swapchainExtent : Extent2D
  swapchain : Nat
  imageIndex : Nat
  swapchainImages : List Nat
  swapchainViews : List Nat
  framebuffers : List Nat
  commands : List Nat
  fences : List Nat
  presentMode : Nat
deriving DecidableEq

/-- The state after the `VulkanAppBase` constructor (vkappbase.cpp:51-55):
`m_presentMode = VK_PRESENT_MODE_FIFO_KHR`, `m_imageIndex = 0`, vectors
empty, value-initialised members zero. -/
def constructedState : AppState :=
  { surfaceFormat := ⟨0, 0⟩
  , swapchainExtent := ⟨0, 0⟩
  , swapchain := 0
  , imageIndex := 0
  , swapchainImages := []
  , swapchainViews := []
  , framebuffers := []
  , commands := []
  , fences := []
  , presentMode := VK_PRESENT_MODE_FIFO_KHR }

/-- State effect of `selectSurfaceFormat(VK_FORMAT_B8G8R8A8_UNORM)` as called
at vkappbase.cpp:81. -/
def selectSurfaceFormatState (env : Env) (s : AppState) : AppState :=
  { s with surfaceFormat :=
      selectSurfaceFormat env.surfaceFormats VK_FORMAT_B8G8R8A8_UNORM s.surfaceFormat }

/-- State effect of `createSwapchain` (vkappbase.cpp:295-339): stores the
computed extent in `m_swapchainExtent` and the new swapchain handle
(abstracted as the nonzero value 1). -/
def createSwapchainState (env : Env) (s : AppState) : AppState :=
  { s with
      swapchain := 1
    , swapchainExtent := swapchainExtentOf env.surfaceCaps env.windowSize }

/-- State effect of `createViews` (vkappbase.cpp:398-443): `m_swapchainImages`
and `m_swapchainViews` are resized to the image count `vkGetSwapchainImagesKHR`
actually reports. -/
def createViewsState (env : Env) (s : AppState) : AppState :=
  { s with
      swapchainImages := List.range env.actualImageCount
    , swapchainViews := List.range env.actualImageCount }

/-- State effect of `createFramebuffer` (vkappbase.cpp:505-531): clears
`m_framebuffers` and pushes one framebuffer per element of
`m_swapchainViews`. -/
def createFramebufferState (s : AppState) : AppState :=
  { s with framebuffers := List.range s.swapchainViews.length }

/-- State effect of `prepareCommandBuffers` (vkappbase.cpp:536-559):
`m_commands` and `m_fences` are both sized to `m_swapchainViews.size()`. -/
def prepareCommandBuffersState (s : AppState) : AppState :=
  { s with
      commands := List.range s.swapchainViews.length
    , fences := List.range s.swapchainViews.length }

/-- The application state after `VulkanAppBase::initialize`
(vkappbase.cpp:57-110), composing the phase effects in call order. -/
def initState (env : Env) : AppState :=
  prepareCommandBuffersState
    (createFramebufferState
      (createViewsState env
        (createSwapchainState env
          (selectSurfaceFormatState env constructedState))))

/-- Driver-side fence payloads: `fenceSignaled.get i` is whether fence `i`
is currently in the signaled state. -/
structure DriverState where
  fenceSignaled : List Bool
deriving DecidableEq

/-- Driver state after `initialize`: every fence was created with
`VK_FENCE_CREATE_SIGNALED_BIT` (vkappbase.cpp:553), so all start signaled. -/
def initDriverState (env : Env) : DriverState :=
  { fenceSignaled := List.replicate env.actualImageCount true }

/-- Whether fence `i` is signaled in driver state `d`. -/
def fenceSignaled (d : DriverState) (i : Nat) : Bool :=
  d.fenceSignaled.getD i false

/-- `vkWaitForFences` on fence `i` blocks exactly when the fence is not yet
signaled. -/
def waitForFencesWouldBlock (d : DriverState) (i : Nat) : Bool :=
  !(fenceSignaled d i)

set_option linter.unusedVariables false in
/-- `VulkanAppBase::render` (vkappbase.cpp:629-690) for one frame in which
the driver hands back image index `nextImageIndex`: returns the updated
member state, the updated driver state (`vkResetFences` unsignals fence
`nextImageIndex`), and the trace of the calls in source order.  The `res`
results are received from the driver but — exactly as in the source — never
inspected: no call in `render` has its result checked. -/
def render (s : AppState) (d : DriverState) (nextImageIndex : Nat)
    (res : Results) : AppState × DriverState × List Event :=
  ({ s with imageIndex := nextImageIndex },
   { d with fenceSignaled := d.fenceSignaled.set nextImageIndex false },
   [Event.acquireNextImage,
    Event.waitFence nextImageIndex,
    Event.beginCommandBuffer nextImageIndex,
    Event.beginRenderPass nextImageIndex,
    Event.setImageIndex nextImageIndex,
    Event.makeCommand nextImageIndex,
    Event.endRenderPass,
    Event.endCommandBuffer nextImageIndex,
    Event.resetFence nextImageIndex,
    Event.queueSubmit,
    Event.queuePresent nextImageIndex])

/-- The trace component of one `render` call. -/
def renderTrace (s : AppState) (d : DriverState) (nextImageIndex : Nat)
    (res : Results) : List Event :=
  (render s d nextImageIndex res).2.2

/-- Any number of consecutive `render` calls; each frame supplies the
acquired image index and the driver's results. -/
def runRenders : AppState → DriverState → List (Nat × Results) →
    AppState × DriverState × List Event
  | s, d, [] => (s, d, [])
  | s, d, (i, res) :: rest =>
    let step := render s d i res
    let next := runRenders step.1 step.2.1 rest
    (next.1, next.2.1, step.2.2 ++ next.2.2)

/-- The full event trace of `initialize`, then any number of `render` calls,
then `terminate`. -/
def programTrace (env : Env) (res : Results) (frames : List (Nat × Results)) :
    List Event :=
  initializeTrace env res ++
    (runRenders (initState env) (initDriverState env) frames).2.2 ++
    terminateTrace env

/-- How many handles of kind `k` a trace creates. -/
def createdCount (t : List Event) (k : HandleKind) : Nat :=
  t.count (Event.create k)

/-- How many handles of kind `k` a trace destroys. -/
def destroyedCount (t : List Event) (k : HandleKind) : Nat :=
  t.count (Event.destroy k)

/-- A `Results` record in which every call succeeds. -/
def allSuccess : Results :=
  { createInstanceR := VkResult.success
  , createDeviceR := VkResult.success
  , createCommandPoolR := VkResult.success
  , createSurfaceR := VkResult.success
  , createSwapchainR := VkResult.success
  , createDepthImageR := VkResult.success
  , allocateMemoryR := VkResult.success
  , bindImageMemoryR := VkResult.success
  , createColorViewR := fun _ => VkResult.success
  , createDepthViewR := VkResult.success
  , createRenderPassR := VkResult.success
  , createFramebufferR := fun _ => VkResult.success
  , allocateCommandBuffersR := VkResult.success
  , createFenceR := fun _ => VkResult.success
  , createSemaphoreR := fun _ => VkResult.success
  , acquireR := VkResult.success
  , waitFencesR := VkResult.success
  , beginCommandBufferR := VkResult.success
  , endCommandBufferR := VkResult.success
  , resetFencesR := VkResult.success
  , queueSubmitR := VkResult.success
  , queuePresentR := VkResult.success }

/-! ### Helper lemmas -/

theorem getMemoryTypeIndexGo_spec (ts : List MemoryType) :
    ∀ (bits props i : Nat),
      getMemoryTypeIndexGo ts bits props i ≠ invalidSentinel →
      ∃ k, k < ts.length ∧ getMemoryTypeIndexGo ts bits props i = i + k ∧
        Nat.testBit bits k = true ∧
        ∃ t, ts[k]? = some t ∧ Nat.land t.propertyFlags props = props := by
  induction ts with
  | nil => intro bits props i h; exact absurd rfl h
  | cons t rest ih =>
    intro bits props i h
    by_cases h1 : bits % 2 = 1
    · by_cases h2 : Nat.land t.propertyFlags props = props
      · refine ⟨0, Nat.succ_pos _, ?_, ?_, t, by simp, h2⟩
        · simp [getMemoryTypeIndexGo, h1, h2]
        · simp [Nat.testBit_zero, h1]
      · have h' : getMemoryTypeIndexGo rest (bits / 2) props (i + 1) ≠ invalidSentinel := by
          simpa [getMemoryTypeIndexGo, h1, h2] using h
        obtain ⟨k, hk, heq, hbit, tt, hget, hland⟩ := ih (bits / 2) props (i + 1) h'
        refine ⟨k + 1, Nat.succ_lt_succ hk, ?_, ?_, tt, by simpa using hget, hland⟩
        · simp only [getMemoryTypeIndexGo, if_pos h1, if_neg h2, heq]
          omega
        · rw [Nat.testBit_add_one]; exact hbit
    · have h' : getMemoryTypeIndexGo rest (bits / 2) props (i + 1) ≠ invalidSentinel := by
        simpa [getMemoryTypeIndexGo, h1] using h
      obtain ⟨k, hk, heq, hbit, tt, hget, hland⟩ := ih (bits / 2) props (i + 1) h'
      refine ⟨k + 1, Nat.succ_lt_succ hk, ?_, ?_, tt, by simpa using hget, hland⟩
      · simp only [getMemoryTypeIndexGo, if_neg h1, heq]
        omega
      · rw [Nat.testBit_add_one]; exact hbit

theorem getMemoryTypeIndex_spec (ts : List MemoryType) (bits props : Nat)
    (h : getMemoryTypeIndex ts bits props ≠ invalidSentinel) :
    getMemoryTypeIndex ts bits props < ts.length ∧
      Nat.testBit bits (getMemoryTypeIndex ts bits props) = true ∧
      ∃ t, ts[getMemoryTypeIndex ts bits props]? = some t ∧
        Nat.land t.propertyFlags props = props := by
  obtain ⟨k, hk, heq, hbit, tt, hget, hland⟩ :=
    getMemoryTypeIndexGo_spec ts bits props 0 h
  have hk0 : getMemoryTypeIndex ts bits props = k := by
    simpa [getMemoryTypeIndex] using heq
  rw [hk0]
  exact ⟨hk, hbit, tt, hget, hland⟩

theorem selectSurfaceFormat_eq_lastMatch (formats : List SurfaceFormat)
    (format : Nat) :
    ∀ prior, selectSurfaceFormat formats format prior =
      (formats.reverse.find? (fun f => f.format == format)).getD prior := by
  induction formats with
  | nil => intro prior; rfl
  | cons f fs ih =>
    intro prior
    have hstep : selectSurfaceFormat (f :: fs) format prior =
        selectSurfaceFormat fs format (if f.format = format then f else prior) := rfl
    rw [hstep, ih]
    simp only [List.reverse_cons, List.find?_append]
    cases hfind : fs.reverse.find? (fun g => g.format == format) with
    | some y => simp
    | none =>
      cases hb : f.format == format with
      | true =>
        have hf : f.format = format := by simpa using hb
        simp [List.find?, hb, hf]
      | false =>
        have hf : ¬f.format = format := by simpa using hb
        simp [List.find?, hb, hf]

theorem selectSurfaceFormat_no_match (formats : List SurfaceFormat)
    (format : Nat) (prior : SurfaceFormat)
    (h : ∀ f ∈ formats, f.format ≠ format) :
    selectSurfaceFormat formats format prior = prior := by
  rw [selectSurfaceFormat_eq_lastMatch]
  have hnone : formats.reverse.find? (fun f => f.format == format) = none := by
    rw [List.find?_eq_none]
    intro x hx
    simpa using h x (List.mem_reverse.mp hx)
  rw [hnone]
  rfl

theorem checkResult_count_create (r : VkResult) (k : HandleKind) :
    (checkResult r).count (Event.create k) = 0 := by
  unfold checkResult
  split <;> simp [List.count_cons]

theorem checkResult_count_destroy (r : VkResult) (k : HandleKind) :
    (checkResult r).count (Event.destroy k) = 0 := by
  unfold checkResult
  split <;> simp [List.count_cons]

theorem checkResult_count_debugBreak (r : VkResult) :
    (checkResult r).count Event.debugBreak =
      if r = VkResult.success then 0 else 1 := by
  unfold checkResult
  split <;> simp_all [List.count_cons]

theorem perImageTrace_count_create (K : HandleKind) (g : Nat → VkResult)
    (n : Nat) (k : HandleKind) :
    (perImageTrace K g n).count (Event.create k) = if k = K then n else 0 := by
  induction n with
  | zero => simp [perImageTrace]
  | succ n ih =>
    simp only [perImageTrace, List.count_append, List.count_cons, ih,
      checkResult_count_create]
    by_cases hk : k = K
    · subst hk; simp
    · simp [hk, Ne.symm hk]

theorem perImageTrace_count_destroy (K : HandleKind) (g : Nat → VkResult)
    (n : Nat) (k : HandleKind) :
    (perImageTrace K g n).count (Event.destroy k) = 0 := by
  induction n with
  | zero => simp [perImageTrace]
  | succ n ih =>
    simp [perImageTrace, List.count_append, List.count_cons, ih,
      checkResult_count_destroy]

theorem render_count_create (s : AppState) (d : DriverState) (i : Nat)
    (res : Results) (k : HandleKind) :
    (render s d i res).2.2.count (Event.create k) = 0 := by
  simp [render, List.count_cons]

theorem render_count_destroy (s : AppState) (d : DriverState) (i : Nat)
    (res : Results) (k : HandleKind) :
    (render s d i res).2.2.count (Event.destroy k) = 0 := by
  simp [render, List.count_cons]

theorem render_count_debugBreak (s : AppState) (d : DriverState) (i : Nat)
    (res : Results) :
    (render s d i res).2.2.count Event.debugBreak = 0 := by
  simp [render, List.count_cons]

theorem runRenders_count_create (frames : List (Nat × Results)) :
    ∀ (s : AppState) (d : DriverState) (k : HandleKind),
      (runRenders s d frames).2.2.count (Event.create k) = 0 := by
  induction frames with
  | nil => intro s d k; simp [runRenders]
  | cons fr rest ih =>
    intro s d k
    simp [runRenders, List.count_append, render_count_create, ih]

theorem runRenders_count_destroy (frames : List (Nat × Results)) :
    ∀ (s : AppState) (d : DriverState) (k : HandleKind),
      (runRenders s d frames).2.2.count (Event.destroy k) = 0 := by
  induction frames with
  | nil => intro s d k; simp [runRenders]
  | cons fr rest ih =>
    intro s d k
    simp [runRenders, List.count_append, render_count_destroy, ih]

theorem getD_replicate_of_lt {α : Type} (a d : α) {n i : Nat} (h : i < n) :
    (List.replicate n a).getD i d = a := by
  rw [List.getD_eq_getElem?_getD, List.getElem?_replicate_of_lt h]
  rfl

/-! ### Concrete environments used as witnesses and counterexamples -/

/-- A host with a single memory type carrying no property flags at all, so
no device-local memory type exists; otherwise ordinary (two swapchain
images, a 640×480 window, one matching surface format). -/
def envNoDeviceLocal : Env :=
  { memTypes := [⟨0⟩]
  , depthMemoryTypeBits := 1
  , surfaceFormats := [⟨44, 0⟩]
  , surfaceCaps := ⟨2, ⟨640, 480⟩⟩
  , windowSize := ⟨640, 480⟩
  , actualImageCount := 2 }

/-- An ordinary host: one device-local memory type, two swapchain images. -/
def envBase : Env :=
  { envNoDeviceLocal with memTypes := [⟨1⟩] }

/-- A host whose swapchain hands back one more image (3) than the requested
minimum of `max(2, minImageCount) = 2`. -/
def envExtraImages : Env :=
  { envBase with actualImageCount := 3 }

/-- A capability snapshot whose extent width is the `~0u` sentinel but whose
height is an ordinary value. -/
def capsWidthSentinel : SurfaceCaps :=
  ⟨2, ⟨4294967295, 500⟩⟩

/-- Results in which every call whose result the program ignores fails, and
every checked call succeeds. -/
def resUncheckedFail : Results :=
  { allSuccess with
      createSurfaceR := VkResult.error 1
    , allocateMemoryR := VkResult.error 2
    , bindImageMemoryR := VkResult.error 3
    , createSemaphoreR := fun _ => VkResult.error 4
    , acquireR := VkResult.error 5
    , waitFencesR := VkResult.error 6
    , beginCommandBufferR := VkResult.error 7
    , endCommandBufferR := VkResult.error 8
    , resetFencesR := VkResult.error 9
    , queueSubmitR := VkResult.error 10
    , queuePresentR := VkResult.error 11 }

/-- Results in which only `vkCreateInstance` fails. -/
def resInstanceFail : Results :=
  { allSuccess with createInstanceR := VkResult.error 1 }

/-- Results in which only `vkQueueSubmit` fails. -/
def resSubmitFail : Results :=
  { allSuccess with queueSubmitR := VkResult.error 1 }

/-! ### Claims -/

/-- C1, counterexample: on a host with no device-local memory type,
`getMemoryTypeIndex` returns the `~0u` sentinel, yet `createDepthBuffer`
signals no failure and still allocates and binds the depth image's memory —
the caller never checks the sentinel. -/
theorem c1_counterexample :
    depthMemoryTypeIndex envNoDeviceLocal = invalidSentinel ∧
      Event.allocateMemoryOp invalidSentinel ∈
        createDepthBufferTrace envNoDeviceLocal allSuccess ∧
      Event.bindImageMemoryOp ∈ createDepthBufferTrace envNoDeviceLocal allSuccess ∧
      Event.debugBreak ∉ createDepthBufferTrace envNoDeviceLocal allSuccess := by
  decide

/-- C1, amended: whenever `getMemoryTypeIndex` returns a non-sentinel index
`i`, bit `i` is set in the requirements mask and memory type `i`'s property
flags are a superset of the requirement; but when no such index exists the
sentinel is returned and no failure is signalled — `createDepthBuffer`'s
operation sequence is unconditional, so it allocates with whatever index
came back (sentinel included) and binds the depth memory regardless. -/
theorem c1_amended (ts : List MemoryType) (bits props : Nat) (env : Env)
    (res : Results) (himg : res.createDepthImageR = VkResult.success) :
    (getMemoryTypeIndex ts bits props ≠ invalidSentinel →
      Nat.testBit bits (getMemoryTypeIndex ts bits props) = true ∧
        ∃ t, ts[getMemoryTypeIndex ts bits props]? = some t ∧
          Nat.land t.propertyFlags props = props) ∧
    createDepthBufferTrace env res =
      [Event.create HandleKind.depthImage,
       Event.allocateMemoryOp (depthMemoryTypeIndex env),
       Event.create HandleKind.depthMemory,
       Event.bindImageMemoryOp] := by
  constructor
  · intro h
    obtain ⟨-, hbit, ht⟩ := getMemoryTypeIndex_spec ts bits props h
    exact ⟨hbit, ht⟩
  · simp [createDepthBufferTrace, checkResult, himg]

/-- Witness for `c1_amended` at concrete inputs: a single device-local
memory type is found at index 0, and on `envNoDeviceLocal` the depth
allocation/bind happens nonetheless. -/
theorem c1_amended_witness :
    (Nat.testBit 1 (getMemoryTypeIndex [⟨1⟩] 1 1) = true ∧
      ∃ t, ([⟨1⟩] : List MemoryType)[getMemoryTypeIndex [⟨1⟩] 1 1]? = some t ∧
        Nat.land t.propertyFlags 1 = 1) ∧
    createDepthBufferTrace envNoDeviceLocal allSuccess =
      [Event.create HandleKind.depthImage,
       Event.allocateMemoryOp (depthMemoryTypeIndex envNoDeviceLocal),
       Event.create HandleKind.depthMemory,
       Event.bindImageMemoryOp] :=
  ⟨(c1_amended [⟨1⟩] 1 1 envNoDeviceLocal allSuccess rfl).1 (by decide),
   (c1_amended [⟨1⟩] 1 1 envNoDeviceLocal allSuccess rfl).2⟩

/-- C2, counterexample: with two enumerated formats both matching the
preferred format 44 but differing in color space, `selectSurfaceFormat`
stores the second (last) match, not the first as the claim states. -/
theorem c2_counterexample :
    selectSurfaceFormat [⟨44, 0⟩, ⟨44, 1⟩] 44 ⟨0, 0⟩ = ⟨44, 1⟩ ∧
      specFirstMatchingFormat [⟨44, 0⟩, ⟨44, 1⟩] 44 = some ⟨44, 0⟩ ∧
      (⟨44, 1⟩ : SurfaceFormat) ≠ ⟨44, 0⟩ := by
  decide

/-- C2, amended: `selectSurfaceFormat` stores the LAST enumerated format
whose format equals the preferred one (the loop keeps overwriting without
breaking); if no enumerated format matches, the field keeps its prior
default value and no error is signalled. -/
theorem c2_amended (formats : List SurfaceFormat) (format : Nat)
    (prior : SurfaceFormat) :
    selectSurfaceFormat formats format prior =
      (formats.reverse.find? (fun f => f.format == format)).getD prior ∧
    ((∀ f ∈ formats, f.format ≠ format) →
      selectSurfaceFormat formats format prior = prior) :=
  ⟨selectSurfaceFormat_eq_lastMatch formats format prior,
   selectSurfaceFormat_no_match formats format prior⟩

/-- Witness for `c2_amended`: a two-format list in which nothing matches the
preferred format 45, so the prior value survives. -/
theorem c2_amended_witness :
    selectSurfaceFormat [⟨44, 0⟩, ⟨44, 1⟩] 45 ⟨7, 8⟩ =
      (([⟨44, 0⟩, ⟨44, 1⟩] : List SurfaceFormat).reverse.find?
        (fun f => f.format == 45)).getD ⟨7, 8⟩ ∧
    selectSurfaceFormat [⟨44, 0⟩, ⟨44, 1⟩] 45 ⟨7, 8⟩ = ⟨7, 8⟩ :=
  ⟨(c2_amended [⟨44, 0⟩, ⟨44, 1⟩] 45 ⟨7, 8⟩).1,
   (c2_amended [⟨44, 0⟩, ⟨44, 1⟩] 45 ⟨7, 8⟩).2 (by decide)⟩

/-- C3, counterexample: after `initialize` followed by zero `render` calls
and `terminate`, the depth image has been created but never destroyed — a
handle is left outstanding. -/
theorem c3_counterexample :
    createdCount (programTrace envBase allSuccess []) HandleKind.depthImage = 1 ∧
      destroyedCount (programTrace envBase allSuccess []) HandleKind.depthImage = 0 := by
  decide

set_option maxHeartbeats 4000000 in
/-- C3, amended: after `initialize`, any number of `render` calls and
`terminate`, every created instance, device, surface, swapchain, render
pass, framebuffer, command buffer, fence, semaphore and command pool has a
matching destroy — but the depth image, its memory, the swapchain color
views and the depth view are created and never destroyed, so those handles
remain outstanding. -/
theorem c3_amended (env : Env) (res : Results) (frames : List (Nat × Results)) :
    destroyedCount (programTrace env res frames) HandleKind.vkInstance =
        createdCount (programTrace env res frames) HandleKind.vkInstance ∧
    destroyedCount (programTrace env res frames) HandleKind.device =
        createdCount (programTrace env res frames) HandleKind.device ∧
    destroyedCount (programTrace env res frames) HandleKind.surface =
        createdCount (programTrace env res frames) HandleKind.surface ∧
    destroyedCount (programTrace env res frames) HandleKind.swapchain =
        createdCount (programTrace env res frames) HandleKind.swapchain ∧
    destroyedCount (programTrace env res frames) HandleKind.renderPass =
        createdCount (programTrace env res frames) HandleKind.renderPass ∧
    destroyedCount (programTrace env res frames) HandleKind.framebuffer =
        createdCount (programTrace env res frames) HandleKind.framebuffer ∧
    destroyedCount (programTrace env res frames) HandleKind.commandBuffer =
        createdCount (programTrace env res frames) HandleKind.commandBuffer ∧
    destroyedCount (programTrace env res frames) HandleKind.fence =
        createdCount (programTrace env res frames) HandleKind.fence ∧
    destroyedCount (programTrace env res frames) HandleKind.semaphore =
        createdCount (programTrace env res frames) HandleKind.semaphore ∧
    destroyedCount (programTrace env res frames) HandleKind.commandPool =
        createdCount (programTrace env res frames) HandleKind.commandPool ∧
    createdCount (programTrace env res frames) HandleKind.depthImage = 1 ∧
    destroyedCount (programTrace env res frames) HandleKind.depthImage = 0 ∧
    createdCount (programTrace env res frames) HandleKind.depthMemory = 1 ∧
    destroyedCount (programTrace env res frames) HandleKind.depthMemory = 0 ∧
    createdCount (programTrace env res frames) HandleKind.colorView =
        env.actualImageCount ∧
    destroyedCount (programTrace env res frames) HandleKind.colorView = 0 ∧
    createdCount (programTrace env res frames) HandleKind.depthView = 1 ∧
    destroyedCount (programTrace env res frames) HandleKind.depthView = 0 := by
  refine ⟨?_, ?_, ?_, ?_, ?_, ?_, ?_, ?_, ?_, ?_, ?_, ?_, ?_, ?_, ?_, ?_, ?_, ?_⟩ <;>
    simp [programTrace, createdCount, destroyedCount, initializeTrace,
      terminateTrace, initializeInstanceTrace, createDeviceTrace,
      prepareCommandPoolTrace, createSurfaceTrace, createSwapchainTrace,
      createDepthBufferTrace, createViewsTrace, createColorViewsTrace,
      createRenderPassTrace, createFramebufferTrace,
      prepareCommandBuffersTrace, createFencesTrace, prepareSemaphoresTrace,
      List.count_append, List.count_cons, List.count_replicate,
      checkResult_count_create, checkResult_count_destroy,
      perImageTrace_count_create, perImageTrace_count_destroy,
      runRenders_count_create, runRenders_count_destroy]

/-- C4, counterexample: `vkQueueSubmit` fails during a `render` call and the
process does not abort — no debug break appears in the trace, because
`render` checks none of its result codes. -/
theorem c4_counterexample :
    resSubmitFail.queueSubmitR ≠ VkResult.success ∧
      (renderTrace (initState envBase) (initDriverState envBase) 0
          resSubmitFail).count Event.debugBreak = 0 := by
  decide

/-- C4, amended: `checkResult` raises a debug break exactly on a non-success
result, and it guards the creation calls of initialization (so e.g. a failed
`vkCreateInstance` aborts visibly); but no call in `render` has its result
checked — a `render` trace never contains a debug break whatever the driver
returns — and the results of surface creation, depth-memory allocation and
binding, and semaphore creation are likewise ignored, so a whole run in
which all of those fail still aborts nowhere. -/
theorem c4_amended (s : AppState) (d : DriverState) (i : Nat) (res : Results)
    (r : VkResult) :
    (checkResult r).count Event.debugBreak =
        (if r = VkResult.success then 0 else 1) ∧
    (renderTrace s d i res).count Event.debugBreak = 0 ∧
    (programTrace envBase resUncheckedFail
        [(0, resUncheckedFail)]).count Event.debugBreak = 0 ∧
    (initializeTrace envBase resInstanceFail).count Event.debugBreak = 1 := by
  refine ⟨checkResult_count_debugBreak r, ?_, by decide, by decide⟩
  simpa [renderTrace] using render_count_debugBreak s d i res

/-- C5, confirmed: within one `render` call the trace is exactly: acquire,
wait on the fence for the acquired index, begin that index's command buffer,
begin the render pass on that index's framebuffer, store the image index,
invoke the drawing callback, end the render pass, end the command buffer,
reset that fence, submit, present — in particular the fence reset strictly
precedes the submit. -/
theorem c5_renderOrder (s : AppState) (d : DriverState) (i : Nat)
    (res : Results) :
    renderTrace s d i res =
      [Event.acquireNextImage, Event.waitFence i, Event.beginCommandBuffer i,
       Event.beginRenderPass i, Event.setImageIndex i, Event.makeCommand i,
       Event.endRenderPass, Event.endCommandBuffer i, Event.resetFence i,
       Event.queueSubmit, Event.queuePresent i] ∧
    ∃ pre post, renderTrace s d i res = pre ++ Event.resetFence i :: post ∧
      Event.queueSubmit ∉ pre ∧ Event.queueSubmit ∈ post := by
  refine ⟨rfl,
    [Event.acquireNextImage, Event.waitFence i, Event.beginCommandBuffer i,
     Event.beginRenderPass i, Event.setImageIndex i, Event.makeCommand i,
     Event.endRenderPass, Event.endCommandBuffer i],
    [Event.queueSubmit, Event.queuePresent i], rfl, ?_, by simp⟩
  simp

/-- C6, counterexample: with a capability snapshot reporting a minimum of 2
the swapchain is requested with `N = max(2, 2) = 2` images, but the driver
actually returns 3, and the manager then allocates 3 command buffers and 3
fences — not exactly `N`. -/
theorem c6_counterexample :
    swapchainImageCountOf envExtraImages.surfaceCaps = 2 ∧
      (initState envExtraImages).commands.length = 3 ∧
      (initState envExtraImages).fences.length = 3 ∧
      (3 : Nat) ≠ 2 := by
  decide

/-- C6, amended: the swapchain is requested with `N = max(2, minImageCount)`
images, and the manager allocates exactly as many command buffers, fences
and framebuffers as images the swapchain actually returned — the three
counts always equal each other (and the actual image count), though the
actual count may differ from the requested `N`. -/
theorem c6_amended (env : Env) :
    swapchainImageCountOf env.surfaceCaps = max 2 env.surfaceCaps.minImageCount ∧
    (initState env).commands.length = env.actualImageCount ∧
    (initState env).fences.length = (initState env).commands.length ∧
    (initState env).framebuffers.length = (initState env).commands.length := by
  refine ⟨rfl, ?_, ?_, ?_⟩ <;>
    simp [initState, prepareCommandBuffersState, createFramebufferState,
      createViewsState, createSwapchainState, selectSurfaceFormatState,
      constructedState]

/-- C7, counterexample: a capability extent of (`~0u`, 500) is not "the
undefined sentinel in both dimensions", yet the code still falls back to the
640×480 window size instead of using the capability extent unchanged — the
fallback tests the width only. -/
theorem c7_counterexample :
    swapchainExtentOf capsWidthSentinel ⟨640, 480⟩ = ⟨640, 480⟩ ∧
      ¬(capsWidthSentinel.currentExtent.width = 4294967295 ∧
        capsWidthSentinel.currentExtent.height = 4294967295) ∧
      swapchainExtentOf capsWidthSentinel ⟨640, 480⟩ ≠
        capsWidthSentinel.currentExtent := by
  decide

/-- C7, amended: with a 640×480 window, the swapchain extent is exactly
640×480 whenever the capability extent's WIDTH is the `0xFFFFFFFF` sentinel
(the height is not consulted); otherwise the capability's current extent is
used unchanged. -/
theorem c7_amended (caps : SurfaceCaps) :
    (caps.currentExtent.width = invalidSentinel →
      swapchainExtentOf caps ⟨640, 480⟩ = ⟨640, 480⟩) ∧
    (caps.currentExtent.width ≠ invalidSentinel →
      swapchainExtentOf caps ⟨640, 480⟩ = caps.currentExtent) := by
  constructor <;> intro h <;> simp [swapchainExtentOf, h]

/-- Witness for `c7_amended`: both branches at concrete snapshots. -/
theorem c7_amended_witness :
    swapchainExtentOf capsWidthSentinel ⟨640, 480⟩ = ⟨640, 480⟩ ∧
    swapchainExtentOf ⟨2, ⟨800, 600⟩⟩ ⟨640, 480⟩ = ⟨800, 600⟩ :=
  ⟨(c7_amended capsWidthSentinel).1 (by decide),
   (c7_amended ⟨2, ⟨800, 600⟩⟩).2 (by decide)⟩

/-- C8, confirmed: `prepareCommandBuffers` sizes both the command-buffer and
fence arrays to the actual swapchain image count and creates every fence
with `VK_FENCE_CREATE_SIGNALED_BIT`, so for any valid image index the very
first `vkWaitForFences` in `render` finds the fence already signaled and
does not block. -/
theorem c8_fencesPreSignaled (env : Env) (i : Nat)
    (h : i < (initState env).fences.length) :
    (initState env).fences.length = env.actualImageCount ∧
    (initState env).commands.length = (initState env).fences.length ∧
    fenceSignaled (initDriverState env) i = true ∧
    waitForFencesWouldBlock (initDriverState env) i = false := by
  have hlen : (initState env).fences.length = env.actualImageCount := by
    simp [initState, prepareCommandBuffersState, createFramebufferState,
      createViewsState, createSwapchainState, selectSurfaceFormatState,
      constructedState]
  have hi : i < env.actualImageCount := hlen ▸ h
  have hsig : fenceSignaled (initDriverState env) i = true := by
    simp only [fenceSignaled, initDriverState]
    rw [getD_replicate_of_lt _ _ hi]
  refine ⟨hlen, ?_, hsig, ?_⟩
  · simp [initState, prepareCommandBuffersState, createFramebufferState,
      createViewsState, createSwapchainState, selectSurfaceFormatState,
      constructedState]
  · simp [waitForFencesWouldBlock, hsig]

/-- Witness for `c8_fencesPreSignaled` on `envBase` at image index 0. -/
theorem c8_fencesPreSignaled_witness :
    (initState envBase).fences.length = envBase.actualImageCount ∧
    (initState envBase).commands.length = (initState envBase).fences.length ∧
    fenceSignaled (initDriverState envBase) 0 = true ∧
    waitForFencesWouldBlock (initDriverState envBase) 0 = false :=
  c8_fencesPreSignaled envBase 0 (by decide)

/-- C9, confirmed: the window-size fallback in `createSwapchain` triggers
exactly when the capability extent's width equals `0xFFFFFFFF` — for any
height value whatsoever — and when it triggers, both resulting dimensions
come from the window; otherwise the extent passes through unchanged. -/
theorem c9_widthOnlyFallback (m w hA : Nat) (win : Extent2D) :
    (w = invalidSentinel → swapchainExtentOf ⟨m, ⟨w, hA⟩⟩ win = win) ∧
    (w ≠ invalidSentinel → swapchainExtentOf ⟨m, ⟨w, hA⟩⟩ win = ⟨w, hA⟩) := by
  constructor <;> intro hcase <;> simp [swapchainExtentOf, hcase]

/-- Witness for `c9_widthOnlyFallback`: the fallback fires with a
non-sentinel height, and does not fire when only the height carries the
sentinel. -/
theorem c9_widthOnlyFallback_witness :
    swapchainExtentOf ⟨2, ⟨4294967295, 123⟩⟩ ⟨640, 480⟩ = ⟨640, 480⟩ ∧
    swapchainExtentOf ⟨2, ⟨640, 4294967295⟩⟩ ⟨800, 600⟩ = ⟨640, 4294967295⟩ :=
  ⟨(c9_widthOnlyFallback 2 4294967295 123 ⟨640, 480⟩).1 rfl,
   (c9_widthOnlyFallback 2 640 4294967295 ⟨800, 600⟩).2 (by decide)⟩

/-- C10, confirmed: a `render` call leaves every member field unchanged
except `m_imageIndex`, which becomes the freshly acquired index — the
swapchain handle, extent, surface format and the framebuffer, command-buffer
and fence handle arrays all survive untouched — and the index is stored
strictly before the drawing callback runs. -/
theorem c10_renderFrameEffect (s : AppState) (d : DriverState) (i : Nat)
    (res : Results) :
    (render s d i res).1 = { s with imageIndex := i } ∧
    (render s d i res).1.swapchain = s.swapchain ∧
    (render s d i res).1.swapchainExtent = s.swapchainExtent ∧
    (render s d i res).1.surfaceFormat = s.surfaceFormat ∧
    (render s d i res).1.framebuffers = s.framebuffers ∧
    (render s d i res).1.commands = s.commands ∧
    (render s d i res).1.fences = s.fences ∧
    (render s d i res).1.imageIndex = i ∧
    ∃ pre post, renderTrace s d i res = pre ++ Event.setImageIndex i :: post ∧
      Event.makeCommand i ∈ post := by
  refine ⟨rfl, rfl, rfl, rfl, rfl, rfl, rfl, rfl,
    [Event.acquireNextImage, Event.waitFence i, Event.beginCommandBuffer i,
     Event.beginRenderPass i],
    [Event.makeCommand i, Event.endRenderPass, Event.endCommandBuffer i,
     Event.resetFence i, Event.queueSubmit, Event.queuePresent i], rfl, ?_⟩
  simp

end VulkanApp
